import Mathlib

/-!
Shallow embedding of the request handlers of
`pkg/chartmuseum/server/multitenant/handlers.go` (ChartMuseum, multitenant
server).  The object store (`server.StorageBackend`) offers `GetObject`,
`PutObject` and `DeleteObject` on string keys; we model it as an association
list of keys to byte strings plus three fault-injection lists that say which
keys the backend currently fails on for each primitive.  Filename derivation
(`cm_repo.ChartPackageFilenameFromContent` etc.) is an external collaborator:
handlers are parameterised by the derivation functions.  Every handler returns
the `c.JSON(status, body)` response it would send, the resulting store, and the
trace of storage primitives it invoked, in order.
-/

namespace ChartMuseum

abbrev Key := String
abbrev Bytes := List Nat

/-- One invocation of a storage primitive, recorded in call order. -/
inductive StorageOp
  | get : Key → StorageOp
  | put : Key → StorageOp
  | del : Key → StorageOp
  deriving DecidableEq, Repr

/-- `true` for the storage primitives that mutate the store. -/
def StorageOp.isMutation : StorageOp → Bool
  | .get _ => false
  | .put _ => true
  | .del _ => true

/-- The object store: current objects plus, for fault injection, the keys on
which each primitive currently fails with a backend error. -/
structure Store where
  objs : List (Key × Bytes)
  putFail : List Key
  delFail : List Key
  getFail : List Key
  deriving DecidableEq, Repr

def Store.lookup (s : Store) (k : Key) : Option Bytes :=
  (s.objs.find? (fun kv => kv.1 == k)).map (fun kv => kv.2)

/-- `StorageBackend.GetObject`: returns the object, or an error when the key is
absent or the backend fails on it.  The handlers only inspect `err == nil`, so
the error carries no payload. -/
def getObject (s : Store) (k : Key) : Except Unit Bytes :=
  if s.getFail.contains k then .error ()
  else
    match s.lookup k with
    | some b => .ok b
    | none => .error ()

/-- The store after a successful `PutObject` of `b` at `k`. -/
def insertObj (s : Store) (k : Key) (b : Bytes) : Store :=
  { s with objs := (k, b) :: s.objs.filter (fun kv => !(kv.1 == k)) }

/-- `StorageBackend.PutObject`: overwrites the key, or fails (store unchanged)
when the backend faults on this key. -/
def putObject (s : Store) (k : Key) (b : Bytes) : Except Unit Unit × Store :=
  if s.putFail.contains k then (.error (), s)
  else (.ok (), insertObj s k b)

/-- `StorageBackend.DeleteObject`: fails when the key is absent (as the local
storage backend does) or when the backend faults on it. -/
def deleteObject (s : Store) (k : Key) : Except Unit Unit × Store :=
  if s.delFail.contains k then (.error (), s)
  else
    match s.lookup k with
    | some _ => (.ok (), { s with objs := s.objs.filter (fun kv => !(kv.1 == k)) })
    | none => (.error (), s)

/-- `path.Join(a, b)` restricted to the clean, slash-free components the
handlers feed it: for such components Go's cleaning is the identity and the
result is `a ++ "/" ++ b`, degenerating when either side is empty. -/
def pathJoin (a b : String) : String :=
  if a = "" then b else if b = "" then a else a ++ "/" ++ b

/-- The `c.JSON(status, body)` response a handler terminates with.  `body` is
the error message, or a marker string for the fixed success bodies. -/
structure Response where
  status : Nat
  body : String
  deriving DecidableEq, Repr

/-- A handler run: response sent, store afterwards, storage calls in order. -/
structure HandlerResult where
  resp : Response
  store : Store
  trace : List StorageOp
  deriving DecidableEq, Repr

/-- The configuration fields of `MultiTenantServer` the handlers read. -/
structure MultiTenantServer where
  allowOverwrite : Bool
  chartPostFormFieldName : String
  provPostFormFieldName : String
  deriving DecidableEq, Repr

/-- `packageOrProvenanceFile` from handlers.go. -/
structure PackageOrProvenanceFile where
  filename : String
  content : Bytes
  field : String
  deriving DecidableEq, Repr

/-- `filenameFromContentFn`: the external ArtifactNamer collaborator. -/
abbrev FilenameFromContentFn := Bytes → Except String String

/-- Outcome of `req.FormFile(field)` followed by the `io.Copy` read, for one
form field.  `formErr` is `req.FormFile` returning a non-nil error (in which
case the returned file is nil); `absent` is a nil file/header with no error;
`copyErr` is a failure of `io.Copy`; `content` is a successful read. -/
inductive FormFileResult
  | formErr : String → FormFileResult
  | absent : FormFileResult
  | copyErr : String → FormFileResult
  | content : Bytes → FormFileResult
  deriving DecidableEq, Repr

/-- `true` when `req.FormFile` yields no usable file: the nil-file branch of
the handler covers both a missing field and a form-parse error, because the
error return of `req.FormFile` is discarded (`file, header, _ :=`). -/
def FormFileResult.isMissing : FormFileResult → Bool
  | .formErr _ => true
  | .absent => true
  | _ => false

/-- The `(*packageOrProvenanceFile, int, error)` return of
`extractAndValidateFormFile`, plus the trace of storage calls it made. -/
structure ExtractResult where
  ppf : Option PackageOrProvenanceFile
  status : Nat
  errMsg : Option String
  trace : List StorageOp
  deriving DecidableEq, Repr

/-- `extractAndValidateFormFile` (handlers.go lines 159-182).  Note two
behaviours taken verbatim from the source: the `req.FormFile` error is
discarded, so `formErr` lands in the same branch as `absent`; and the
overwrite-probe calls `GetObject(filename)` on the BARE derived filename,
without the tenant prefix. -/
def extractAndValidateFormFile (server : MultiTenantServer) (s : Store)
    (ff : FormFileResult) (fnFromContent : FilenameFromContentFn)
    (field : String) : ExtractResult :=
  match ff with
  | .formErr _ => ⟨none, 200, none, []⟩
  | .absent => ⟨none, 200, none, []⟩
  | .copyErr e => ⟨none, 500, some e, []⟩
  | .content content =>
    match fnFromContent content with
    | .error e => ⟨none, 400, some e, []⟩
    | .ok filename =>
      if !server.allowOverwrite then
        match getObject s filename with
        | .ok _ =>
          ⟨none, 409, some (filename ++ " already exists"), [StorageOp.get filename]⟩
        | .error _ =>
          ⟨some ⟨filename, content, field⟩, 200, none, [StorageOp.get filename]⟩
      else
        ⟨some ⟨filename, content, field⟩, 200, none, []⟩

/-- The rollback loop of `postPackageAndProvenanceRequestHandler` (lines
228-231): delete each already-stored file, ignoring delete errors.  As in the
source, the key passed to `DeleteObject` is `ppf.filename` WITHOUT the tenant
prefix, although the writes went to `pathutil.Join(repo, ppf.filename)`. -/
def rollbackStored (s : Store) (stored : List PackageOrProvenanceFile) :
    Store × List StorageOp :=
  match stored with
  | [] => (s, [])
  | ppf :: rest =>
    let r := deleteObject s ppf.filename
    let next := rollbackStored r.2 rest
    (next.1, StorageOp.del ppf.filename :: next.2)

/-- The write loop of `postPackageAndProvenanceRequestHandler` (lines
218-236): put each surviving candidate at `Join(repo, filename)`; on the first
failure roll back the already-stored prefix and answer 500; if all writes
succeed answer 201. -/
def storePPFiles (repo : String) (s : Store)
    (files stored : List PackageOrProvenanceFile) : HandlerResult :=
  match files with
  | [] => ⟨⟨201, "saved"⟩, s, []⟩
  | ppf :: rest =>
    let key := pathJoin repo ppf.filename
    let r := putObject s key ppf.content
    match r.1 with
    | .ok _ =>
      let next := storePPFiles repo r.2 rest (stored ++ [ppf])
      ⟨next.resp, next.store, StorageOp.put key :: next.trace⟩
    | .error _ =>
      let rb := rollbackStored r.2 stored
      ⟨⟨500, "storage error"⟩, rb.1, StorageOp.put key :: rb.2⟩

/-- The zero-candidate error body (lines 210-213). -/
def noFilesFoundMessage (server : MultiTenantServer) : String :=
  "no package or provenance file found in form fields " ++
    server.chartPostFormFieldName ++ " and " ++ server.provPostFormFieldName

/-- `postPackageAndProvenanceRequestHandler` (lines 184-237).  The field/fn
pairs are processed in the fixed order {chart field, prov field}; an extraction
error returns immediately with its status; zero surviving candidates is a 400
naming both fields; otherwise the write loop runs. -/
def postPackageAndProvenanceRequestHandler (server : MultiTenantServer)
    (chartFn provFn : FilenameFromContentFn) (repo : String)
    (chartFF provFF : FormFileResult) (s : Store) : HandlerResult :=
  let r1 := extractAndValidateFormFile server s chartFF chartFn
    server.chartPostFormFieldName
  match r1.errMsg with
  | some e => ⟨⟨r1.status, e⟩, s, r1.trace⟩
  | none =>
    let r2 := extractAndValidateFormFile server s provFF provFn
      server.provPostFormFieldName
    match r2.errMsg with
    | some e => ⟨⟨r2.status, e⟩, s, r1.trace ++ r2.trace⟩
    | none =>
      let ppFiles := r1.ppf.toList ++ r2.ppf.toList
      if ppFiles.isEmpty then
        ⟨⟨400, noFilesFoundMessage server⟩, s, r1.trace ++ r2.trace⟩
      else
        let st := storePPFiles repo s ppFiles []
        ⟨st.resp, st.store, r1.trace ++ r2.trace ++ st.trace⟩

/-- `postPackageRequestHandler` (lines 239-267).  `rawData` is the result of
`c.GetRawData()`.  Both the overwrite probe and the write use the tenant-scoped
key `Join(repo, filename)`.  A namer failure answers 500 (as in the source,
line 248), not 400. -/
def postPackageRequestHandler (server : MultiTenantServer)
    (chartFn : FilenameFromContentFn) (repo : String)
    (rawData : Except String Bytes) (s : Store) : HandlerResult :=
  match rawData with
  | .error e => ⟨⟨500, e⟩, s, []⟩
  | .ok content =>
    match chartFn content with
    | .error e => ⟨⟨500, e⟩, s, []⟩
    | .ok filename =>
      let key := pathJoin repo filename
      if !server.allowOverwrite then
        match getObject s key with
        | .ok _ => ⟨⟨409, "file already exists"⟩, s, [StorageOp.get key]⟩
        | .error _ =>
          let r := putObject s key content
          match r.1 with
          | .error _ =>
            ⟨⟨500, "storage error"⟩, r.2, [StorageOp.get key, StorageOp.put key]⟩
          | .ok _ =>
            ⟨⟨201, "saved"⟩, r.2, [StorageOp.get key, StorageOp.put key]⟩
      else
        let r := putObject s key content
        match r.1 with
        | .error _ => ⟨⟨500, "storage error"⟩, r.2, [StorageOp.put key]⟩
        | .ok _ => ⟨⟨201, "saved"⟩, r.2, [StorageOp.put key]⟩

/-- `postProvenanceFileRequestHandler` (lines 269-297).  Taken verbatim from
the source: the overwrite probe reads `Join(repo, filename)` (line 282) but
the write stores at the BARE `filename` (line 291). -/
def postProvenanceFileRequestHandler (server : MultiTenantServer)
    (provFn : FilenameFromContentFn) (repo : String)
    (rawData : Except String Bytes) (s : Store) : HandlerResult :=
  match rawData with
  | .error e => ⟨⟨500, e⟩, s, []⟩
  | .ok content =>
    match provFn content with
    | .error e => ⟨⟨500, e⟩, s, []⟩
    | .ok filename =>
      if !server.allowOverwrite then
        match getObject s (pathJoin repo filename) with
        | .ok _ =>
          ⟨⟨409, "file already exists"⟩, s, [StorageOp.get (pathJoin repo filename)]⟩
        | .error _ =>
          let r := putObject s filename content
          match r.1 with
          | .error _ =>
            ⟨⟨500, "storage error"⟩, r.2,
              [StorageOp.get (pathJoin repo filename), StorageOp.put filename]⟩
          | .ok _ =>
            ⟨⟨201, "saved"⟩, r.2,
              [StorageOp.get (pathJoin repo filename), StorageOp.put filename]⟩
      else
        let r := putObject s filename content
        match r.1 with
        | .error _ => ⟨⟨500, "storage error"⟩, r.2, [StorageOp.put filename]⟩
        | .ok _ => ⟨⟨201, "saved"⟩, r.2, [StorageOp.put filename]⟩

/-- `deleteChartVersionRequestHandler` (lines 133-149).  Parameterised by the
external identity-to-filename derivations
(`cm_repo.ChartPackageFilenameFromNameVersion` and
`cm_repo.ProvenanceFilenameFromNameVersion`).  A failed package delete answers
404 without touching the provenance object; after a successful package delete
the provenance delete runs unconditionally and its error is ignored. -/
def deleteChartVersionRequestHandler
    (chartNameFromNameVersion provNameFromNameVersion : String → String → String)
    (repo name version : String) (s : Store) : HandlerResult :=
  let filename := pathJoin repo (chartNameFromNameVersion name version)
  let r := deleteObject s filename
  match r.1 with
  | .error _ => ⟨⟨404, "not found"⟩, r.2, [StorageOp.del filename]⟩
  | .ok _ =>
    let provFilename := pathJoin repo (provNameFromNameVersion name version)
    let r2 := deleteObject r.2 provFilename
    ⟨⟨200, "deleted"⟩, r2.2, [StorageOp.del filename, StorageOp.del provFilename]⟩

/-- A chart version record as served by the index. -/
structure ChartVersionRecord where
  name : String
  version : String
  deriving DecidableEq, Repr

/-- Modelled from the spec: the external `TenantIndex` collaborator (the
`IndexFile` returned by `server.getIndexFile`, whose `Get` method lives
outside this repository's visible source).  Per the spec, the index maps each
chart name to an ORDERED set of versions (highest first), and its resolver
returns the exact version requested, or the highest version when the caller
requests the latest (which the handler encodes as the empty version string). -/
structure IndexFile where
  entries : List (String × List ChartVersionRecord)
  deriving DecidableEq, Repr

def IndexFile.entryFor (idx : IndexFile) (name : String) :
    Option (List ChartVersionRecord) :=
  (idx.entries.find? (fun e => e.1 == name)).map (fun e => e.2)

/-- Modelled from the spec: `Index.resolve(name, version|latest)`.  The empty
version string is the sentinel the handler passes for "latest"; it resolves to
the head of the ordered (highest-first) version list. -/
def IndexFile.get (idx : IndexFile) (name version : String) :
    Except Unit ChartVersionRecord :=
  match idx.entryFor name with
  | none => .error ()
  | some versions =>
    if version = "" then
      match versions with
      | [] => .error ()
      | v :: _ => .ok v
    else
      match versions.find? (fun v => v.version == version) with
      | some v => .ok v
      | none => .error ()

/-- The highest version of a chart in the index: the head of its ordered
(highest-first) version list. -/
def IndexFile.highestVersion (idx : IndexFile) (name : String) :
    Option ChartVersionRecord :=
  (idx.entryFor name).bind (fun versions => versions.head?)

/-- Responses of `getChartVersionRequestHandler`. -/
inductive ChartVersionResponse
  | failure : Nat → String → ChartVersionResponse
  | record : ChartVersionRecord → ChartVersionResponse
  deriving DecidableEq, Repr

/-- `getChartVersionRequestHandler` (lines 111-130).  `indexResult` is the
result of `server.getIndexFile` (status and message on failure).  The handler
maps the "latest" sentinel to the empty version string and otherwise only
forwards to the index resolver. -/
def getChartVersionRequestHandler (indexResult : Except (Nat × String) IndexFile)
    (name version0 : String) : ChartVersionResponse :=
  let version := if version0 = "latest" then "" else version0
  match indexResult with
  | .error e => .failure e.1 e.2
  | .ok indexFile =>
    match indexFile.get name version with
    | .error _ => .failure 404 "not found"
    | .ok cv => .record cv

/-- `true` on `.ok`, `false` on `.error`. -/
def exceptOk {ε α : Type _} : Except ε α → Bool
  | .ok _ => true
  | .error _ => false

/-- Every storage call made by `extractAndValidateFormFile` is a read (the
only storage primitive it can invoke is the overwrite probe). -/
theorem extractAndValidateFormFile_trace_reads_only (server : MultiTenantServer)
    (s : Store) (ff : FormFileResult) (fn : FilenameFromContentFn)
    (field : String) :
    (extractAndValidateFormFile server s ff fn field).trace.all
      (fun op => op.isMutation = false) = true := by
  unfold extractAndValidateFormFile
  cases ff with
  | formErr e => simp
  | absent => simp
  | copyErr e => simp
  | content b =>
    cases hb : fn b with
    | error e => simp [hb]
    | ok filename =>
      by_cases hov : server.allowOverwrite
      · simp [hb, hov]
      · cases hg : getObject s filename <;>
          simp [hb, hov, hg, StorageOp.isMutation]

/-- C4: in `deleteChartVersionRequestHandler`, a failed tenant-scoped package
delete yields the not-found response and the provenance delete is never
attempted; a successful package delete yields the delete-confirmation response
and the provenance delete is then attempted unconditionally, its outcome never
influencing the response. -/
theorem deleteChartVersion_outcome
    (cn pn : String → String → String) (repo name version : String) (s : Store) :
    (deleteChartVersionRequestHandler cn pn repo name version s).resp =
      (if exceptOk (deleteObject s (pathJoin repo (cn name version))).1 = true
        then (⟨200, "deleted"⟩ : Response) else ⟨404, "not found"⟩) ∧
    (deleteChartVersionRequestHandler cn pn repo name version s).trace =
      (if exceptOk (deleteObject s (pathJoin repo (cn name version))).1 = true
        then [StorageOp.del (pathJoin repo (cn name version)),
              StorageOp.del (pathJoin repo (pn name version))]
        else [StorageOp.del (pathJoin repo (cn name version))]) := by
  unfold deleteChartVersionRequestHandler
  cases h : (deleteObject s (pathJoin repo (cn name version))).1 <;>
    simp [h, exceptOk]

/-- C5: in `postPackageAndProvenanceRequestHandler`, if the extraction of
either form field fails (I/O, validation, or conflict), the handler returns
before the write phase: the store is unchanged and every storage call in the
trace is a read — no put or delete is issued for any field, including one
processed earlier in the fixed {chart, prov} order. -/
theorem postPackageAndProvenance_extraction_error_no_writes
    (server : MultiTenantServer) (chartFn provFn : FilenameFromContentFn)
    (repo : String) (chartFF provFF : FormFileResult) (s : Store)
    (h : (extractAndValidateFormFile server s chartFF chartFn
            server.chartPostFormFieldName).errMsg.isSome = true ∨
         (extractAndValidateFormFile server s provFF provFn
            server.provPostFormFieldName).errMsg.isSome = true) :
    (postPackageAndProvenanceRequestHandler server chartFn provFn repo
        chartFF provFF s).store = s ∧
    (postPackageAndProvenanceRequestHandler server chartFn provFn repo
        chartFF provFF s).trace.all (fun op => op.isMutation = false) = true := by
  unfold postPackageAndProvenanceRequestHandler
  cases h1 : (extractAndValidateFormFile server s chartFF chartFn
      server.chartPostFormFieldName).errMsg with
  | some e1 =>
    simp [h1]
    have := extractAndValidateFormFile_trace_reads_only server s chartFF chartFn
      server.chartPostFormFieldName
    simpa using this
  | none =>
    cases h2 : (extractAndValidateFormFile server s provFF provFn
        server.provPostFormFieldName).errMsg with
    | some e2 =>
      have t1 := extractAndValidateFormFile_trace_reads_only server s chartFF chartFn
        server.chartPostFormFieldName
      have t2 := extractAndValidateFormFile_trace_reads_only server s provFF provFn
        server.provPostFormFieldName
      simp [h1, h2, List.all_append]
      constructor <;> simp_all
    | none => exact absurd h (by simp [h1, h2])

/-- C6: in `postPackageAndProvenanceRequestHandler`, when neither configured
form field yields a file (absent, or the form-file extraction returned an
error), the handler answers 400 with the message naming both configured field
names, the store is unchanged, and no storage call at all is made. -/
theorem postPackageAndProvenance_zero_candidates
    (server : MultiTenantServer) (chartFn provFn : FilenameFromContentFn)
    (repo : String) (chartFF provFF : FormFileResult) (s : Store)
    (h1 : chartFF.isMissing = true) (h2 : provFF.isMissing = true) :
    postPackageAndProvenanceRequestHandler server chartFn provFn repo
        chartFF provFF s =
      ⟨⟨400, "no package or provenance file found in form fields " ++
          server.chartPostFormFieldName ++ " and " ++
          server.provPostFormFieldName⟩, s, []⟩ := by
  cases chartFF <;> cases provFF <;>
    simp_all [FormFileResult.isMissing, postPackageAndProvenanceRequestHandler,
      extractAndValidateFormFile, noFilesFoundMessage]

/-- C6 witness: concrete instantiation with both fields absent. -/
theorem postPackageAndProvenance_zero_candidates_witness :
    postPackageAndProvenanceRequestHandler ⟨false, "chart", "prov"⟩
        (fun _ => .ok "a.tgz") (fun _ => .ok "a.tgz.prov") "myrepo"
        .absent .absent ⟨[], [], [], []⟩ =
      ⟨⟨400, "no package or provenance file found in form fields " ++
          "chart" ++ " and " ++ "prov"⟩, ⟨[], [], [], []⟩, []⟩ :=
  postPackageAndProvenance_zero_candidates ⟨false, "chart", "prov"⟩
    (fun _ => .ok "a.tgz") (fun _ => .ok "a.tgz.prov") "myrepo"
    .absent .absent ⟨[], [], [], []⟩ rfl rfl

/-- C10: `extractAndValidateFormFile` discards the form-file extraction error:
a field whose multipart extraction fails behaves exactly like an absent field,
and a request whose form cannot be parsed at all (both fields error) falls
through to the zero-candidates 400 validation response naming both fields,
with no storage call, instead of reporting the parse failure. -/
theorem extractFormFile_parse_error_treated_as_absent
    (server : MultiTenantServer) (chartFn provFn fn : FilenameFromContentFn)
    (repo field e1 e2 : String) (s : Store) :
    extractAndValidateFormFile server s (.formErr e1) fn field =
      extractAndValidateFormFile server s .absent fn field ∧
    postPackageAndProvenanceRequestHandler server chartFn provFn repo
        (.formErr e1) (.formErr e2) s =
      ⟨⟨400, noFilesFoundMessage server⟩, s, []⟩ := by
  constructor
  · rfl
  · simp [postPackageAndProvenanceRequestHandler, extractAndValidateFormFile,
      noFilesFoundMessage]

/-- C5 witness: concrete run where the chart field's read fails with an I/O
error; the store is untouched and the trace holds no mutation. -/
theorem postPackageAndProvenance_extraction_error_no_writes_witness :
    (postPackageAndProvenanceRequestHandler ⟨false, "chart", "prov"⟩
        (fun _ => .ok "a.tgz") (fun _ => .ok "a.tgz.prov") "myrepo"
        (.copyErr "unexpected EOF") .absent ⟨[], [], [], []⟩).store =
      (⟨[], [], [], []⟩ : Store) ∧
    (postPackageAndProvenanceRequestHandler ⟨false, "chart", "prov"⟩
        (fun _ => .ok "a.tgz") (fun _ => .ok "a.tgz.prov") "myrepo"
        (.copyErr "unexpected EOF") .absent ⟨[], [], [], []⟩).trace.all
      (fun op => op.isMutation = false) = true :=
  postPackageAndProvenance_extraction_error_no_writes ⟨false, "chart", "prov"⟩
    (fun _ => .ok "a.tgz") (fun _ => .ok "a.tgz.prov") "myrepo"
    (.copyErr "unexpected EOF") .absent ⟨[], [], [], []⟩ (Or.inl rfl)

/-- C3 counterexample: when the ArtifactNamer rejects the raw body,
`postPackageRequestHandler` answers status 500, not the validation-class 400
the claim requires (no storage call is made, as the claim also says). -/
theorem postPackage_namer_rejection_counterexample :
    ¬ ((postPackageRequestHandler ⟨false, "chart", "prov"⟩
          (fun _ => .error "gzip: invalid header") "myrepo" (.ok [0])
          ⟨[], [], [], []⟩).resp.status = 400) ∧
    (postPackageRequestHandler ⟨false, "chart", "prov"⟩
        (fun _ => .error "gzip: invalid header") "myrepo" (.ok [0])
        ⟨[], [], [], []⟩).resp.status = 500 ∧
    (postPackageRequestHandler ⟨false, "chart", "prov"⟩
        (fun _ => .error "gzip: invalid header") "myrepo" (.ok [0])
        ⟨[], [], [], []⟩).trace = [] := by
  refine ⟨?_, rfl, rfl⟩
  decide

/-- C3 (amended): when the ArtifactNamer rejects the raw body of a
single-artifact ingestion, the call fails with the 500 status the handler
assigns to this case (a backend-class status, not a client-fault one), the
store is unchanged, and no object-store operation (probe, write, or delete) is
performed. -/
theorem postPackage_namer_rejection
    (server : MultiTenantServer) (chartFn : FilenameFromContentFn)
    (repo e : String) (content : Bytes) (s : Store)
    (h : chartFn content = .error e) :
    postPackageRequestHandler server chartFn repo (.ok content) s =
      ⟨⟨500, e⟩, s, []⟩ := by
  unfold postPackageRequestHandler
  simp [h]

/-- C3 witness: concrete instantiation of the amended statement. -/
theorem postPackage_namer_rejection_witness :
    postPackageRequestHandler ⟨false, "chart", "prov"⟩
        (fun _ => .error "gzip: invalid header") "myrepo" (.ok [0])
        ⟨[], [], [], []⟩ =
      ⟨⟨500, "gzip: invalid header"⟩, ⟨[], [], [], []⟩, []⟩ :=
  postPackage_namer_rejection ⟨false, "chart", "prov"⟩
    (fun _ => .error "gzip: invalid header") "myrepo" "gzip: invalid header"
    [0] ⟨[], [], [], []⟩ rfl

/-- Filtering for a key immediately after filtering that key out is empty. -/
theorem filter_eq_key_of_filter_ne_key (l : List (Key × Bytes)) (k : Key) :
    ((l.filter (fun kv => !(kv.1 == k))).filter (fun kv => kv.1 == k)) = [] := by
  induction l with
  | nil => rfl
  | cons kv rest ih =>
    by_cases h : kv.1 = k <;> simp [h, ih]

/-- C7: with overwrite disabled and a healthy backend for B's derived
tenant-scoped key, ingesting the same valid package bytes twice through
`postPackageRequestHandler` yields the saved-confirmation (201) on the first
call and the conflict response (409) on the second, and the store afterwards
holds exactly one object at the derived tenant-scoped key, with B as its
content. -/
theorem postPackage_double_ingest_conflict
    (server : MultiTenantServer) (chartFn : FilenameFromContentFn)
    (B : Bytes) (fname repo : String) (s0 : Store)
    (hov : server.allowOverwrite = false)
    (hn : chartFn B = .ok fname)
    (habs : s0.lookup (pathJoin repo fname) = none)
    (hget : pathJoin repo fname ∉ s0.getFail)
    (hput : pathJoin repo fname ∉ s0.putFail) :
    (postPackageRequestHandler server chartFn repo (.ok B) s0).resp =
      ⟨201, "saved"⟩ ∧
    (postPackageRequestHandler server chartFn repo (.ok B)
        (postPackageRequestHandler server chartFn repo (.ok B) s0).store).resp =
      ⟨409, "file already exists"⟩ ∧
    (postPackageRequestHandler server chartFn repo (.ok B)
        (postPackageRequestHandler server chartFn repo (.ok B) s0).store).store.lookup
      (pathJoin repo fname) = some B ∧
    ((postPackageRequestHandler server chartFn repo (.ok B)
        (postPackageRequestHandler server chartFn repo (.ok B) s0).store).store.objs.filter
      (fun kv => kv.1 == pathJoin repo fname)).length = 1 := by
  have hg0 : getObject s0 (pathJoin repo fname) = .error () := by
    simp [getObject, hget, habs]
  have hp0 : putObject s0 (pathJoin repo fname) B =
      (.ok (), insertObj s0 (pathJoin repo fname) B) := by
    simp [putObject, hput]
  have hr1 : postPackageRequestHandler server chartFn repo (.ok B) s0 =
      ⟨⟨201, "saved"⟩, insertObj s0 (pathJoin repo fname) B,
        [StorageOp.get (pathJoin repo fname), StorageOp.put (pathJoin repo fname)]⟩ := by
    unfold postPackageRequestHandler
    simp [hn, hov, hg0, hp0]
  have hg1 : getObject (insertObj s0 (pathJoin repo fname) B)
      (pathJoin repo fname) = .ok B := by
    simp [getObject, insertObj, hget, Store.lookup]
  have hr2 : postPackageRequestHandler server chartFn repo (.ok B)
      (insertObj s0 (pathJoin repo fname) B) =
      ⟨⟨409, "file already exists"⟩, insertObj s0 (pathJoin repo fname) B,
        [StorageOp.get (pathJoin repo fname)]⟩ := by
    unfold postPackageRequestHandler
    simp [hn, hov, hg1]
  simp only [hr1, hr2]
  refine ⟨trivial, trivial, ?_, ?_⟩
  · simp [insertObj, Store.lookup]
  · simp [insertObj, filter_eq_key_of_filter_ne_key]

/-- C7 witness: concrete double ingestion of the bytes `[5]` deriving
`x-1.0.0.tgz` in repo `r` against an initially empty, healthy store. -/
theorem postPackage_double_ingest_conflict_witness :
    (postPackageRequestHandler ⟨false, "c", "p"⟩ (fun _ => .ok "x-1.0.0.tgz")
        "r" (.ok [5]) ⟨[], [], [], []⟩).resp = ⟨201, "saved"⟩ ∧
    (postPackageRequestHandler ⟨false, "c", "p"⟩ (fun _ => .ok "x-1.0.0.tgz")
        "r" (.ok [5])
        (postPackageRequestHandler ⟨false, "c", "p"⟩ (fun _ => .ok "x-1.0.0.tgz")
          "r" (.ok [5]) ⟨[], [], [], []⟩).store).resp =
      ⟨409, "file already exists"⟩ ∧
    (postPackageRequestHandler ⟨false, "c", "p"⟩ (fun _ => .ok "x-1.0.0.tgz")
        "r" (.ok [5])
        (postPackageRequestHandler ⟨false, "c", "p"⟩ (fun _ => .ok "x-1.0.0.tgz")
          "r" (.ok [5]) ⟨[], [], [], []⟩).store).store.lookup
      (pathJoin "r" "x-1.0.0.tgz") = some [5] ∧
    ((postPackageRequestHandler ⟨false, "c", "p"⟩ (fun _ => .ok "x-1.0.0.tgz")
        "r" (.ok [5])
        (postPackageRequestHandler ⟨false, "c", "p"⟩ (fun _ => .ok "x-1.0.0.tgz")
          "r" (.ok [5]) ⟨[], [], [], []⟩).store).store.objs.filter
      (fun kv => kv.1 == pathJoin "r" "x-1.0.0.tgz")).length = 1 :=
  postPackage_double_ingest_conflict ⟨false, "c", "p"⟩
    (fun _ => .ok "x-1.0.0.tgz") [5] "x-1.0.0.tgz" "r" ⟨[], [], [], []⟩
    rfl rfl rfl (by simp) (by simp)

/-- C8: when the tenant's index resolves and holds at least one version of the
chart, fetching the version with the "latest" sentinel returns exactly the
record the index resolver yields for the highest version, which is also what
resolving the highest version from the index directly gives — the handler only
forwards the sentinel (as the empty version string) to the resolver. -/
theorem getChartVersion_latest_resolves_highest
    (idx : IndexFile) (name : String) (v : ChartVersionRecord)
    (h : idx.highestVersion name = some v) :
    getChartVersionRequestHandler (.ok idx) name "latest" = .record v ∧
    idx.get name "" = .ok v := by
  have hg : idx.get name "" = .ok v := by
    unfold IndexFile.get
    unfold IndexFile.highestVersion at h
    cases he : idx.entryFor name with
    | none => rw [he] at h; simp at h
    | some versions =>
      rw [he] at h
      cases versions with
      | nil => simp at h
      | cons v0 rest => simp at h; subst h; simp
  refine ⟨?_, hg⟩
  unfold getChartVersionRequestHandler
  simp [hg]

/-- C8 witness: a two-version index, ordered highest first. -/
theorem getChartVersion_latest_resolves_highest_witness :
    getChartVersionRequestHandler
        (.ok ⟨[("mychart", [⟨"mychart", "2.0.0"⟩, ⟨"mychart", "1.0.0"⟩])]⟩)
        "mychart" "latest" = .record ⟨"mychart", "2.0.0"⟩ ∧
    IndexFile.get ⟨[("mychart", [⟨"mychart", "2.0.0"⟩, ⟨"mychart", "1.0.0"⟩])]⟩
        "mychart" "" = .ok ⟨"mychart", "2.0.0"⟩ :=
  getChartVersion_latest_resolves_highest
    ⟨[("mychart", [⟨"mychart", "2.0.0"⟩, ⟨"mychart", "1.0.0"⟩])]⟩
    "mychart" ⟨"mychart", "2.0.0"⟩ rfl

/-- C9: in `postProvenanceFileRequestHandler` with overwrite disabled, the
conflict probe reads the tenant-prefixed key `Join(repo, filename)` while the
successful write stores the object at the bare derived filename; the stored
key is therefore independent of the tenant, and uploads of same-named
provenance content from two different tenants land on the same object. -/
theorem postProvenance_probe_scoped_write_unscoped
    (server : MultiTenantServer) (provFn : FilenameFromContentFn)
    (repoA repoB : String) (content : Bytes) (fname : String) (s : Store)
    (hov : server.allowOverwrite = false)
    (hn : provFn content = .ok fname)
    (hpA : getObject s (pathJoin repoA fname) = .error ())
    (hpB : getObject s (pathJoin repoB fname) = .error ())
    (hput : fname ∉ s.putFail) :
    (postProvenanceFileRequestHandler server provFn repoA (.ok content) s).trace =
      [StorageOp.get (pathJoin repoA fname), StorageOp.put fname] ∧
    (postProvenanceFileRequestHandler server provFn repoB (.ok content) s).trace =
      [StorageOp.get (pathJoin repoB fname), StorageOp.put fname] ∧
    (postProvenanceFileRequestHandler server provFn repoA
        (.ok content) s).store.lookup fname = some content ∧
    (postProvenanceFileRequestHandler server provFn repoB
        (.ok content) s).store.lookup fname = some content := by
  have hp : putObject s fname content =
      (.ok (), insertObj s fname content) := by
    simp [putObject, hput]
  refine ⟨?_, ?_, ?_, ?_⟩ <;>
  · unfold postProvenanceFileRequestHandler
    simp [hn, hov, hpA, hpB, hp, insertObj, Store.lookup]

/-- C9 witness: two tenants `a` and `b` uploading bytes `[7]` deriving
`x.prov` against an empty, healthy store. -/
theorem postProvenance_probe_scoped_write_unscoped_witness :
    (postProvenanceFileRequestHandler ⟨false, "c", "p"⟩ (fun _ => .ok "x.prov")
        "a" (.ok [7]) ⟨[], [], [], []⟩).trace =
      [StorageOp.get (pathJoin "a" "x.prov"), StorageOp.put "x.prov"] ∧
    (postProvenanceFileRequestHandler ⟨false, "c", "p"⟩ (fun _ => .ok "x.prov")
        "b" (.ok [7]) ⟨[], [], [], []⟩).trace =
      [StorageOp.get (pathJoin "b" "x.prov"), StorageOp.put "x.prov"] ∧
    (postProvenanceFileRequestHandler ⟨false, "c", "p"⟩ (fun _ => .ok "x.prov")
        "a" (.ok [7]) ⟨[], [], [], []⟩).store.lookup "x.prov" = some [7] ∧
    (postProvenanceFileRequestHandler ⟨false, "c", "p"⟩ (fun _ => .ok "x.prov")
        "b" (.ok [7]) ⟨[], [], [], []⟩).store.lookup "x.prov" = some [7] :=
  postProvenance_probe_scoped_write_unscoped ⟨false, "c", "p"⟩
    (fun _ => .ok "x.prov") "a" "b" [7] "x.prov" ⟨[], [], [], []⟩
    rfl rfl rfl rfl (by simp)

/-- C1: evaluation of `postPackageAndProvenanceRequestHandler` at the failing
input.  Repo `myrepo`, both fields present and valid, empty store, backend
failing only the provenance put.  The package write succeeds at the
tenant-scoped key, the provenance write fails, and the rollback deletes the
BARE filename (which was never written), so the call answers 500 but leaves
the package object in storage: the store does NOT return to its pre-call
state, contradicting the claim. -/
theorem postPackageAndProvenance_rollback_misses_scoped_key :
    (postPackageAndProvenanceRequestHandler ⟨false, "chart", "prov"⟩
        (fun _ => .ok "mychart-0.1.0.tgz") (fun _ => .ok "mychart-0.1.0.tgz.prov")
        "myrepo" (.content [1]) (.content [2])
        ⟨[], ["myrepo/mychart-0.1.0.tgz.prov"], [], []⟩).resp.status = 500 ∧
    Store.lookup ⟨[], ["myrepo/mychart-0.1.0.tgz.prov"], [], []⟩
      "myrepo/mychart-0.1.0.tgz" = none ∧
    (postPackageAndProvenanceRequestHandler ⟨false, "chart", "prov"⟩
        (fun _ => .ok "mychart-0.1.0.tgz") (fun _ => .ok "mychart-0.1.0.tgz.prov")
        "myrepo" (.content [1]) (.content [2])
        ⟨[], ["myrepo/mychart-0.1.0.tgz.prov"], [], []⟩).store.lookup
      "myrepo/mychart-0.1.0.tgz" = some [1] ∧
    (postPackageAndProvenanceRequestHandler ⟨false, "chart", "prov"⟩
        (fun _ => .ok "mychart-0.1.0.tgz") (fun _ => .ok "mychart-0.1.0.tgz.prov")
        "myrepo" (.content [1]) (.content [2])
        ⟨[], ["myrepo/mychart-0.1.0.tgz.prov"], [], []⟩).trace =
      [StorageOp.get "mychart-0.1.0.tgz", StorageOp.get "mychart-0.1.0.tgz.prov",
       StorageOp.put "myrepo/mychart-0.1.0.tgz",
       StorageOp.put "myrepo/mychart-0.1.0.tgz.prov",
       StorageOp.del "mychart-0.1.0.tgz"] :=
  ⟨rfl, rfl, rfl, rfl⟩

/-- C2: evaluation of `postPackageAndProvenanceRequestHandler` at the failing
input.  Overwrite is disabled and an object already exists at the tenant-scoped
key `myrepo/mychart-0.1.0.tgz` that the subsequent write uses, yet the conflict
probe reads the BARE filename, finds nothing, and the call proceeds to
silently overwrite the existing object and answer 201 — instead of failing
with the conflict response before any write, as the claim requires. -/
theorem postPackageAndProvenance_probe_misses_scoped_key :
    Store.lookup ⟨[("myrepo/mychart-0.1.0.tgz", [9])], [], [], []⟩
      "myrepo/mychart-0.1.0.tgz" = some [9] ∧
    (postPackageAndProvenanceRequestHandler ⟨false, "chart", "prov"⟩
        (fun _ => .ok "mychart-0.1.0.tgz") (fun _ => .ok "mychart-0.1.0.tgz.prov")
        "myrepo" (.content [1]) .absent
        ⟨[("myrepo/mychart-0.1.0.tgz", [9])], [], [], []⟩).resp.status = 201 ∧
    (postPackageAndProvenanceRequestHandler ⟨false, "chart", "prov"⟩
        (fun _ => .ok "mychart-0.1.0.tgz") (fun _ => .ok "mychart-0.1.0.tgz.prov")
        "myrepo" (.content [1]) .absent
        ⟨[("myrepo/mychart-0.1.0.tgz", [9])], [], [], []⟩).trace =
      [StorageOp.get "mychart-0.1.0.tgz", StorageOp.put "myrepo/mychart-0.1.0.tgz"] ∧
    (postPackageAndProvenanceRequestHandler ⟨false, "chart", "prov"⟩
        (fun _ => .ok "mychart-0.1.0.tgz") (fun _ => .ok "mychart-0.1.0.tgz.prov")
        "myrepo" (.content [1]) .absent
        ⟨[("myrepo/mychart-0.1.0.tgz", [9])], [], [], []⟩).store.lookup
      "myrepo/mychart-0.1.0.tgz" = some [1] :=
  ⟨rfl, rfl, rfl, rfl⟩

end ChartMuseum
